import Mathlib

/-!
pose_detection_tflite: desktop plugin shims

A shallow embedding of the Linux (GTK embedder) and Windows (Win32 embedder)
plugin shims of `pose_detection_tflite`, together with the duplicated
`face_detection_tflite` surface that lives next to them.

The host runtime (messenger, codec, registrar, method call / response objects)
and the operating system (`uname`, the `VersionHelpers.h` predicates) are not
part of the repository.  They are represented by small recording stubs: every
host call the plugin code makes is stored in the stub, in program order, so
that the effects of the plugin code can be stated and proved.

Source files embedded here:

* `linux/pose_detection_tflite_plugin.cc`
* `windows/pose_detection_tflite_plugin.cpp`
* `windows/face_detection_tflite_plugin.cpp`
* `windows/registration.cpp`
* `windows/face_detection_tflite_plugin_c_api.cpp`
-/

set_option linter.unusedVariables false

/-! ## C strings -/

/-- The terminating character of a C string. -/
def NUL : Char := Char.ofNat 0

/-- The C string stored at the start of a character buffer: the characters
before the first `NUL` (the end of the list also terminates it). -/
def c_str (buf : List Char) : List Char :=
  buf.takeWhile (fun c => c != NUL)

/-- A buffer holds no `NUL`, so that the C string it denotes is the whole buffer. -/
def nul_free (buf : List Char) : Prop :=
  ∀ c ∈ buf, c ≠ NUL

/-- The character a `char*` walk reads at the current position; reading at the
end of the modelled buffer yields the terminator. -/
def current (p : List Char) : Char :=
  p.headD NUL

/-- Model of libc `strcmp`: walk both strings while the characters agree and
are not the terminator; the result is the difference of the first pair of
characters that disagree, and zero when both strings end together. -/
def strcmp : List Char → List Char → Int
  | [], q => (NUL.toNat : Int) - ((current q).toNat : Int)
  | a :: p, [] => (a.toNat : Int) - (NUL.toNat : Int)
  | a :: p, b :: q =>
    if a ≠ b then (a.toNat : Int) - (b.toNat : Int)
    else if a = NUL then 0
    else strcmp p q

/-- Model of `std::string::compare(const char*)`: the common part is compared
character by character, and when it agrees the lengths decide.  The object is a
counted string, so every character of it takes part, a `NUL` included. -/
def basic_string.compare : List Char → List Char → Int
  | [], [] => 0
  | [], _ :: _ => -1
  | _ :: _, [] => 1
  | a :: p, b :: q =>
    if a.toNat < b.toNat then -1
    else if b.toNat < a.toNat then 1
    else basic_string.compare p q

/-- Model of `g_strdup_printf` for a format with a single `%s` directive: the
format is copied, and the directive is replaced by the C string found in the
argument buffer. -/
def g_strdup_printf : List Char → List Char → List Char
  | [], _ => []
  | [c], _ => [c]
  | c :: d :: rest, arg =>
    if c = Char.ofNat 37 ∧ d = Char.ofNat 115 then c_str arg ++ g_strdup_printf rest arg
    else c :: g_strdup_printf (d :: rest) arg

/-! ## Linux host objects -/

/-- Kinds of `FlValue` (`fl_value_get_type`). -/
inductive FlValueType where
  | FL_VALUE_TYPE_NULL
  | FL_VALUE_TYPE_BOOL
  | FL_VALUE_TYPE_INT
  | FL_VALUE_TYPE_STRING
  | FL_VALUE_TYPE_UINT8_LIST
  deriving DecidableEq, Repr

/-- Host value type of the Linux embedder.  The plugin only ever builds the
string variant; the other variants stand for argument payloads. -/
inductive FlValue where
  | null
  | bool (b : Bool)
  | int (i : Int)
  | string (s : String)
  | uint8_list (bytes : List Nat)
  deriving DecidableEq, Repr

/-- Kind of a host value. -/
def fl_value_get_type : FlValue → FlValueType
  | .null => .FL_VALUE_TYPE_NULL
  | .bool _ => .FL_VALUE_TYPE_BOOL
  | .int _ => .FL_VALUE_TYPE_INT
  | .string _ => .FL_VALUE_TYPE_STRING
  | .uint8_list _ => .FL_VALUE_TYPE_UINT8_LIST

/-- Host constructor `fl_value_new_string`, applied to a C string. -/
def fl_value_new_string (s : List Char) : FlValue :=
  .string (String.mk (c_str s))

/-- Responses of the Linux embedder (`FlMethodResponse` and its three subclasses). -/
inductive FlMethodResponse where
  | success (result : FlValue)
  | error (code : String) (message : String) (details : FlValue)
  | not_implemented
  deriving DecidableEq, Repr

/-- Host constructor `fl_method_success_response_new`. -/
def fl_method_success_response_new (result : FlValue) : FlMethodResponse :=
  .success result

/-- Host constructor `fl_method_not_implemented_response_new`. -/
def fl_method_not_implemented_response_new : FlMethodResponse :=
  .not_implemented

/-- An inbound method call on Linux: the method name (the buffer that
`fl_method_call_get_name` points to), the argument payload, and the log of
responses that were sent for this call through `fl_method_call_respond`. -/
structure FlMethodCall where
  name : List Char
  args : FlValue
  responses : List FlMethodResponse
  deriving DecidableEq, Repr

/-- Host accessor `fl_method_call_get_name`. -/
def fl_method_call_get_name (method_call : FlMethodCall) : List Char :=
  method_call.name

/-- Host operation `fl_method_call_respond`: the response is appended to the
log of the call. -/
def fl_method_call_respond (method_call : FlMethodCall) (response : FlMethodResponse) :
    FlMethodCall :=
  { method_call with responses := method_call.responses ++ [response] }

/-! ## Linux operating system interface -/

/-- Length of every field of `struct utsname` on Linux (`_UTSNAME_LENGTH`). -/
def UTSNAME_LENGTH : Nat := 65

/-- The structure filled by `uname`: character arrays. -/
structure utsname where
  sysname : List Char
  nodename : List Char
  release : List Char
  version : List Char
  machine : List Char
  domainname : List Char
  deriving DecidableEq, Repr

/-- Value of `struct utsname uname_data = {}`: every array is zero-filled. -/
def utsname.zero : utsname :=
  { sysname := List.replicate UTSNAME_LENGTH NUL
    nodename := List.replicate UTSNAME_LENGTH NUL
    release := List.replicate UTSNAME_LENGTH NUL
    version := List.replicate UTSNAME_LENGTH NUL
    machine := List.replicate UTSNAME_LENGTH NUL
    domainname := List.replicate UTSNAME_LENGTH NUL }

/-- The system call `uname`.  The kernel either reports its identification
(`some`), which is stored into the structure and 0 is returned, or the call
fails (`none`): the structure is left as it was and -1 is returned. -/
def uname (kernel : Option utsname) (buf : utsname) : Int × utsname :=
  match kernel with
  | some reported => (0, reported)
  | none => (-1, buf)

/-! ## `linux/pose_detection_tflite_plugin.cc` -/

/-- The plugin object `struct _PoseDetectionTflitePlugin`: it has no field
besides the parent instance. -/
structure PoseDetectionTflitePlugin where
  deriving DecidableEq, Repr

/-- The C function `get_platform_version` (lines 37-43). -/
def get_platform_version (kernel : Option utsname) : FlMethodResponse :=
  let uname_data : utsname := utsname.zero
  let uname_data := (uname kernel uname_data).2
  let version := g_strdup_printf "Linux %s".data uname_data.version
  let result := fl_value_new_string version
  fl_method_success_response_new result

/-- The C function `pose_detection_tflite_plugin_handle_method_call`
(lines 21-35).  The outcome of `uname` is the only input from the environment. -/
def pose_detection_tflite_plugin_handle_method_call (kernel : Option utsname)
    (self : PoseDetectionTflitePlugin) (method_call : FlMethodCall) : FlMethodCall :=
  let method := fl_method_call_get_name method_call
  let response :=
    if strcmp method "getPlatformVersion".data = 0 then
      get_platform_version kernel
    else
      fl_method_not_implemented_response_new
  fl_method_call_respond method_call response


/-- The callback a handler installation refers to.  The file defines one:
`method_call_cb`. -/
inductive FlMethodChannelMethodCallHandler where
  | method_call_cb
  deriving DecidableEq, Repr

/-- The destroy notification passed with the user data of a handler. -/
inductive GDestroyNotify where
  | g_object_unref
  deriving DecidableEq, Repr

/-- Codecs the host offers for a method channel. -/
inductive FlMethodCodec where
  | standard
  | json
  deriving DecidableEq, Repr

/-- A method channel created with `fl_method_channel_new`. -/
structure FlMethodChannel where
  name : String
  codec : FlMethodCodec
  deriving DecidableEq, Repr

/-- One call of `fl_method_channel_set_method_call_handler`: the channel, the
callback, the user data (the address of a plugin object) and the destroy
notification that releases the user data. -/
structure FlHandlerBinding where
  channel : FlMethodChannel
  handler : FlMethodChannelMethodCallHandler
  user_data : Nat
  destroy_notify : GDestroyNotify
  deriving DecidableEq, Repr

/-- Recording stub of the Linux plugin registrar and its messenger:
`objects` holds the reference count of every plugin object created with
`g_object_new` (the address of an object is its index), `channels` the
channels created on the messenger, `handlers` the handler installations. -/
structure FlPluginRegistrar where
  objects : List Nat
  channels : List FlMethodChannel
  handlers : List FlHandlerBinding
  deriving DecidableEq, Repr

/-- A registrar on which nothing has been registered. -/
def FlPluginRegistrar.empty : FlPluginRegistrar :=
  { objects := [], channels := [], handlers := [] }

/-- Host operation `g_object_new(pose_detection_tflite_plugin_get_type(), nullptr)`:
a new plugin object with reference count 1; its address is returned. -/
def g_object_new (registrar : FlPluginRegistrar) : Nat × FlPluginRegistrar :=
  (registrar.objects.length, { registrar with objects := registrar.objects ++ [1] })

/-- Host operation `g_object_ref`: one more reference to the object; the
address is returned. -/
def g_object_ref (registrar : FlPluginRegistrar) (object : Nat) : Nat × FlPluginRegistrar :=
  (object, { registrar with objects := registrar.objects.modify (fun n => n + 1) object })

/-- Host operation `g_object_unref`: one reference fewer. -/
def g_object_unref (registrar : FlPluginRegistrar) (object : Nat) : FlPluginRegistrar :=
  { registrar with objects := registrar.objects.modify (fun n => n - 1) object }

/-- Host constructor `fl_standard_method_codec_new`. -/
def fl_standard_method_codec_new : FlMethodCodec :=
  .standard

/-- The messenger of a Linux registrar; the stub records both in one value. -/
abbrev FlBinaryMessenger := FlPluginRegistrar

/-- Host accessor `fl_plugin_registrar_get_messenger`. -/
def fl_plugin_registrar_get_messenger (registrar : FlPluginRegistrar) : FlBinaryMessenger :=
  registrar

/-- Host constructor `fl_method_channel_new` on a messenger. -/
def fl_method_channel_new (messenger : FlBinaryMessenger) (name : String)
    (codec : FlMethodCodec) : FlMethodChannel × FlPluginRegistrar :=
  let channel : FlMethodChannel := { name := name, codec := codec }
  (channel, { messenger with channels := messenger.channels ++ [channel] })

/-- Host operation `fl_method_channel_set_method_call_handler`. -/
def fl_method_channel_set_method_call_handler (registrar : FlPluginRegistrar)
    (channel : FlMethodChannel) (handler : FlMethodChannelMethodCallHandler)
    (user_data : Nat) (destroy_notify : GDestroyNotify) : FlPluginRegistrar :=
  { registrar with
    handlers := registrar.handlers ++
      [{ channel := channel, handler := handler, user_data := user_data,
         destroy_notify := destroy_notify }] }

/-- The C function `method_call_cb` (lines 55-59): the user data is cast to the
plugin and the call is handed to the handler of the plugin. -/
def method_call_cb (kernel : Option utsname) (channel : FlMethodChannel)
    (method_call : FlMethodCall) (user_data : PoseDetectionTflitePlugin) : FlMethodCall :=
  let plugin := user_data
  pose_detection_tflite_plugin_handle_method_call kernel plugin method_call

/-- The C function `pose_detection_tflite_plugin_register_with_registrar`
(lines 61-75). -/
def pose_detection_tflite_plugin_register_with_registrar (registrar : FlPluginRegistrar) :
    FlPluginRegistrar :=
  let (plugin, registrar) := g_object_new registrar
  let codec := fl_standard_method_codec_new
  let (channel, registrar) :=
    fl_method_channel_new (fl_plugin_registrar_get_messenger registrar)
      "pose_detection_tflite" codec
  let (user_data, registrar) := g_object_ref registrar plugin
  let registrar := fl_method_channel_set_method_call_handler registrar channel
    .method_call_cb user_data .g_object_unref
  g_object_unref registrar plugin

/-! ## Windows host objects -/

/-- Host value type of the Windows embedder (`flutter::EncodableValue`).  The
plugin only ever builds the string variant; the other variants stand for
argument payloads. -/
inductive EncodableValue where
  | null
  | bool (b : Bool)
  | int (i : Int)
  | string (s : String)
  | uint8_list (bytes : List Nat)
  deriving DecidableEq, Repr

/-- An inbound method call on Windows (`flutter::MethodCall`). -/
structure MethodCall where
  method_name : String
  arguments : EncodableValue
  deriving DecidableEq, Repr

/-- The replies a `flutter::MethodResult` accepts. -/
inductive Reply where
  | Success (value : EncodableValue)
  | Error (code : String) (message : String) (details : EncodableValue)
  | NotImplemented
  deriving DecidableEq, Repr

/-- The result object handed to a handler (`flutter::MethodResult`): the log of
the replies sent through it. -/
structure MethodResult where
  replies : List Reply
  deriving DecidableEq, Repr

/-- Host operation `result->Success(value)`. -/
def MethodResult.Success (result : MethodResult) (value : EncodableValue) : MethodResult :=
  { replies := result.replies ++ [Reply.Success value] }

/-- Host operation `result->NotImplemented()`. -/
def MethodResult.NotImplemented (result : MethodResult) : MethodResult :=
  { replies := result.replies ++ [Reply.NotImplemented] }

/-- Results of the three predicates of `VersionHelpers.h` on the running host. -/
structure VersionHelpers where
  IsWindows10OrGreater : Bool
  IsWindows8OrGreater : Bool
  IsWindows7OrGreater : Bool
  deriving DecidableEq, Repr

/-- The `std::ostringstream` used to compose the version string: the
characters written so far. -/
structure ostringstream where
  buffer : List Char
  deriving DecidableEq, Repr

/-- Stream insertion of a string literal. -/
def ostringstream.write (stream : ostringstream) (s : String) : ostringstream :=
  { buffer := stream.buffer ++ s.data }

/-- The member `str()`. -/
def ostringstream.str (stream : ostringstream) : String :=
  String.mk stream.buffer

/-- The two plugin classes of the Windows sources; both are called
`PoseDetectionTflitePlugin`, one per C++ namespace. -/
inductive PluginClass where
  | pose_detection_tflite
  | face_detection_tflite
  deriving DecidableEq, Repr

/-- A plugin object created with `std::make_unique`: its address and its class.
Neither class declares a data member. -/
structure Plugin where
  address : Nat
  cls : PluginClass
  deriving DecidableEq, Repr

/-- Codecs the host offers for a method channel. -/
inductive MethodCodec where
  | StandardMethodCodec
  | JsonMethodCodec
  deriving DecidableEq, Repr

/-- Host accessor `flutter::StandardMethodCodec::GetInstance()`. -/
def StandardMethodCodec.GetInstance : MethodCodec :=
  .StandardMethodCodec

/-- A `flutter::MethodChannel<flutter::EncodableValue>`. -/
structure MethodChannel where
  name : String
  codec : MethodCodec
  deriving DecidableEq, Repr

/-- The closure given to `SetMethodCallHandler`: it captures `plugin_pointer`
and forwards to `plugin_pointer->HandleMethodCall`. -/
structure MethodCallHandler where
  plugin_pointer : Plugin
  deriving DecidableEq, Repr

/-- One call of `SetMethodCallHandler`. -/
structure HandlerBinding where
  channel : MethodChannel
  handler : MethodCallHandler
  deriving DecidableEq, Repr

/-- Recording stub of `flutter::PluginRegistrarWindows` and its messenger:
`allocated` counts the plugin objects created so far (the address of a new
object is the count before it is created), `channels` holds the channels
constructed on the messenger, `handlers` the handler installations, `plugins`
the objects passed to `AddPlugin`. -/
structure PluginRegistrarWindows where
  allocated : Nat
  channels : List MethodChannel
  handlers : List HandlerBinding
  plugins : List Plugin
  deriving DecidableEq, Repr

/-- A registrar on which nothing has been registered. -/
def PluginRegistrarWindows.empty : PluginRegistrarWindows :=
  { allocated := 0, channels := [], handlers := [], plugins := [] }

/-- The messenger of a Windows registrar; the stub records both in one value. -/
abbrev BinaryMessenger := PluginRegistrarWindows

/-- Host accessor `registrar->messenger()`. -/
def PluginRegistrarWindows.messenger (registrar : PluginRegistrarWindows) : BinaryMessenger :=
  registrar

/-- Construction of a method channel on a messenger. -/
def make_unique_MethodChannel (messenger : BinaryMessenger) (name : String)
    (codec : MethodCodec) : MethodChannel × PluginRegistrarWindows :=
  let channel : MethodChannel := { name := name, codec := codec }
  (channel, { messenger with channels := messenger.channels ++ [channel] })

/-- Construction of a plugin object of the given class. -/
def make_unique_Plugin (registrar : PluginRegistrarWindows) (cls : PluginClass) :
    Plugin × PluginRegistrarWindows :=
  ({ address := registrar.allocated, cls := cls },
   { registrar with allocated := registrar.allocated + 1 })

/-- Host operation `channel->SetMethodCallHandler(handler)`. -/
def MethodChannel.SetMethodCallHandler (registrar : PluginRegistrarWindows)
    (channel : MethodChannel) (handler : MethodCallHandler) : PluginRegistrarWindows :=
  { registrar with
    handlers := registrar.handlers ++ [{ channel := channel, handler := handler }] }

/-- Host operation `registrar->AddPlugin(std::move(plugin))`. -/
def PluginRegistrarWindows.AddPlugin (registrar : PluginRegistrarWindows) (plugin : Plugin) :
    PluginRegistrarWindows :=
  { registrar with plugins := registrar.plugins ++ [plugin] }

/-- The C handle of a registrar. -/
abbrev FlutterDesktopPluginRegistrarRef := PluginRegistrarWindows

/-- Host accessor `PluginRegistrarManager::GetInstance()->GetRegistrar`: the
C++ registrar that belongs to the handle. -/
def GetRegistrar (registrar : FlutterDesktopPluginRegistrarRef) : PluginRegistrarWindows :=
  registrar

/-! ## `windows/pose_detection_tflite_plugin.cpp` -/

namespace pose_detection_tflite.PoseDetectionTflitePlugin

/-- The static member `RegisterWithRegistrar` (lines 15-30). -/
def RegisterWithRegistrar (registrar : PluginRegistrarWindows) : PluginRegistrarWindows :=
  let (channel, registrar) :=
    make_unique_MethodChannel registrar.messenger "pose_detection_tflite"
      StandardMethodCodec.GetInstance
  let (plugin, registrar) := make_unique_Plugin registrar .pose_detection_tflite
  let registrar := channel.SetMethodCallHandler registrar { plugin_pointer := plugin }
  registrar.AddPlugin plugin

/-- The member `HandleMethodCall` (lines 35-52). -/
def HandleMethodCall (os : VersionHelpers) (method_call : MethodCall)
    (result : MethodResult) : MethodResult :=
  if basic_string.compare method_call.method_name.data "getPlatformVersion".data = 0 then
    let version_stream : ostringstream := { buffer := [] }
    let version_stream := version_stream.write "Windows "
    let version_stream :=
      if os.IsWindows10OrGreater then version_stream.write "10+"
      else if os.IsWindows8OrGreater then version_stream.write "8"
      else if os.IsWindows7OrGreater then version_stream.write "7"
      else version_stream
    result.Success (EncodableValue.string version_stream.str)
  else
    result.NotImplemented

end pose_detection_tflite.PoseDetectionTflitePlugin

namespace pose_detection_tflite_plugin_cpp

/-- The free function `PoseDetectionTflitePluginRegisterWithRegistrar` of
`windows/pose_detection_tflite_plugin.cpp` (lines 56-62). -/
def PoseDetectionTflitePluginRegisterWithRegistrar
    (registrar : FlutterDesktopPluginRegistrarRef) : PluginRegistrarWindows :=
  let cpp_registrar := GetRegistrar registrar
  pose_detection_tflite.PoseDetectionTflitePlugin.RegisterWithRegistrar cpp_registrar

end pose_detection_tflite_plugin_cpp

/-! ## `windows/face_detection_tflite_plugin.cpp` -/

namespace face_detection_tflite.PoseDetectionTflitePlugin

/-- The static member `RegisterWithRegistrar` (lines 20-35). -/
def RegisterWithRegistrar (registrar : PluginRegistrarWindows) : PluginRegistrarWindows :=
  let (channel, registrar) :=
    make_unique_MethodChannel registrar.messenger "face_detection_tflite"
      StandardMethodCodec.GetInstance
  let (plugin, registrar) := make_unique_Plugin registrar .face_detection_tflite
  let registrar := channel.SetMethodCallHandler registrar { plugin_pointer := plugin }
  registrar.AddPlugin plugin

/-- The member `HandleMethodCall` (lines 41-58). -/
def HandleMethodCall (os : VersionHelpers) (method_call : MethodCall)
    (result : MethodResult) : MethodResult :=
  if basic_string.compare method_call.method_name.data "getPlatformVersion".data = 0 then
    let version_stream : ostringstream := { buffer := [] }
    let version_stream := version_stream.write "Windows "
    let version_stream :=
      if os.IsWindows10OrGreater then version_stream.write "10+"
      else if os.IsWindows8OrGreater then version_stream.write "8"
      else if os.IsWindows7OrGreater then version_stream.write "7"
      else version_stream
    result.Success (EncodableValue.string version_stream.str)
  else
    result.NotImplemented

end face_detection_tflite.PoseDetectionTflitePlugin

namespace face_detection_tflite_plugin_cpp

/-- The free function `PoseDetectionTflitePluginRegisterWithRegistrar` of
`windows/face_detection_tflite_plugin.cpp` (lines 64-70). -/
def PoseDetectionTflitePluginRegisterWithRegistrar
    (registrar : FlutterDesktopPluginRegistrarRef) : PluginRegistrarWindows :=
  let cpp_registrar := GetRegistrar registrar
  face_detection_tflite.PoseDetectionTflitePlugin.RegisterWithRegistrar cpp_registrar

end face_detection_tflite_plugin_cpp

/-! ## `windows/registration.cpp` -/

namespace registration_cpp

/-- The free function `PoseDetectionTflitePluginRegisterWithRegistrar` of
`windows/registration.cpp` (lines 5-10). -/
def PoseDetectionTflitePluginRegisterWithRegistrar
    (registrar : FlutterDesktopPluginRegistrarRef) : PluginRegistrarWindows :=
  let cpp_registrar := GetRegistrar registrar
  face_detection_tflite.PoseDetectionTflitePlugin.RegisterWithRegistrar cpp_registrar

end registration_cpp

/-! ## `windows/face_detection_tflite_plugin_c_api.cpp` -/

/-- The free function `PoseDetectionTflitePluginCApiRegisterWithRegistrar`
(lines 7-12). -/
def PoseDetectionTflitePluginCApiRegisterWithRegistrar
    (registrar : FlutterDesktopPluginRegistrarRef) : PluginRegistrarWindows :=
  face_detection_tflite.PoseDetectionTflitePlugin.RegisterWithRegistrar (GetRegistrar registrar)

/-! ## Dispatch through an installed handler -/

/-- Running the closure installed by `RegisterWithRegistrar`: the call is
forwarded to the `HandleMethodCall` of the class of the captured plugin. -/
def MethodCallHandler.invoke (os : VersionHelpers) (handler : MethodCallHandler)
    (call : MethodCall) (result : MethodResult) : MethodResult :=
  match handler.plugin_pointer.cls with
  | .pose_detection_tflite =>
    pose_detection_tflite.PoseDetectionTflitePlugin.HandleMethodCall os call result
  | .face_detection_tflite =>
    face_detection_tflite.PoseDetectionTflitePlugin.HandleMethodCall os call result

/-! ## Call sequences and registration sequences -/

instance (buf : List Char) : Decidable (nul_free buf) :=
  inferInstanceAs (Decidable (∀ c ∈ buf, c ≠ NUL))

/-- A sequence of calls served one after the other by the Linux handler.  Every
call comes with the outcome `uname` has at that moment.  The handler returns
nothing and the plugin object has no field, so the plugin object is the only
thing passed from one call to the next. -/
def linux_serve (self : PoseDetectionTflitePlugin) :
    List (Option utsname × FlMethodCall) → List FlMethodCall
  | [] => []
  | (kernel, method_call) :: rest =>
    pose_detection_tflite_plugin_handle_method_call kernel self method_call ::
      linux_serve self rest

/-- A sequence of calls served one after the other by an installed Windows
handler.  Every call comes with the predicate results of that moment and with
its own result object. -/
def windows_serve (handler : MethodCallHandler) :
    List (VersionHelpers × MethodCall × MethodResult) → List MethodResult
  | [] => []
  | (os, call, result) :: rest =>
    handler.invoke os call result :: windows_serve handler rest

/-- The registration entry points of the Windows sources. -/
inductive WindowsEntryPoint where
  | pose_detection_tflite_plugin_cpp
  | face_detection_tflite_plugin_cpp
  | registration_cpp
  | face_detection_tflite_plugin_c_api_cpp
  deriving DecidableEq, Repr

/-- One invocation of a Windows registration entry point. -/
def WindowsEntryPoint.run (entry : WindowsEntryPoint)
    (registrar : PluginRegistrarWindows) : PluginRegistrarWindows :=
  match entry with
  | .pose_detection_tflite_plugin_cpp =>
    pose_detection_tflite_plugin_cpp.PoseDetectionTflitePluginRegisterWithRegistrar registrar
  | .face_detection_tflite_plugin_cpp =>
    face_detection_tflite_plugin_cpp.PoseDetectionTflitePluginRegisterWithRegistrar registrar
  | .registration_cpp =>
    registration_cpp.PoseDetectionTflitePluginRegisterWithRegistrar registrar
  | .face_detection_tflite_plugin_c_api_cpp =>
    PoseDetectionTflitePluginCApiRegisterWithRegistrar registrar

/-- A sequence of Windows registration calls on one registrar, first call first. -/
def windows_register_all (registrar : PluginRegistrarWindows) :
    List WindowsEntryPoint → PluginRegistrarWindows
  | [] => registrar
  | entry :: rest => windows_register_all (entry.run registrar) rest

/-- A number of Linux registration calls on one registrar. -/
def linux_register_times (registrar : FlPluginRegistrar) : Nat → FlPluginRegistrar
  | 0 => registrar
  | n + 1 =>
    linux_register_times (pose_detection_tflite_plugin_register_with_registrar registrar) n

/-- The plugin instances a Windows registrar holds for a channel name: the
objects given to `AddPlugin` that a handler bound to a channel of that name
forwards to. -/
def PluginRegistrarWindows.plugins_for (registrar : PluginRegistrarWindows)
    (name : String) : List Plugin :=
  registrar.plugins.filter (fun plugin =>
    registrar.handlers.any (fun binding =>
      decide (binding.handler.plugin_pointer = plugin) && decide (binding.channel.name = name)))

/-- The plugin instances a Linux registrar holds for a channel name: the user
data of the handlers bound to a channel of that name, as long as the object is
still referenced. -/
def FlPluginRegistrar.plugins_for (registrar : FlPluginRegistrar) (name : String) : List Nat :=
  (registrar.handlers.filter (fun binding =>
    decide (binding.channel.name = name) &&
      decide (0 < registrar.objects.getD binding.user_data 0))).map (fun binding =>
        binding.user_data)

/-- The channel name an entry point binds (the literal in the
`RegisterWithRegistrar` it calls). -/
def WindowsEntryPoint.channel_name : WindowsEntryPoint → String
  | .pose_detection_tflite_plugin_cpp => "pose_detection_tflite"
  | .face_detection_tflite_plugin_cpp => "face_detection_tflite"
  | .registration_cpp => "face_detection_tflite"
  | .face_detection_tflite_plugin_c_api_cpp => "face_detection_tflite"

/-- The class whose `RegisterWithRegistrar` an entry point calls. -/
def WindowsEntryPoint.cls : WindowsEntryPoint → PluginClass
  | .pose_detection_tflite_plugin_cpp => .pose_detection_tflite
  | .face_detection_tflite_plugin_cpp => .face_detection_tflite
  | .registration_cpp => .face_detection_tflite
  | .face_detection_tflite_plugin_c_api_cpp => .face_detection_tflite

/-- Every plugin address a Windows registrar mentions has been allocated. -/
def PluginRegistrarWindows.fresh (registrar : PluginRegistrarWindows) : Prop :=
  (∀ plugin ∈ registrar.plugins, plugin.address < registrar.allocated) ∧
  (∀ binding ∈ registrar.handlers,
    binding.handler.plugin_pointer.address < registrar.allocated)

/-- Every user data a Linux registrar mentions is the address of an object. -/
def FlPluginRegistrar.fresh (registrar : FlPluginRegistrar) : Prop :=
  ∀ binding ∈ registrar.handlers, binding.user_data < registrar.objects.length

/-! ## Properties of the string functions -/

theorem char_eq_of_toNat_eq (c d : Char) (h : c.toNat = d.toNat) : c = d := by
  apply Char.ext
  apply UInt32.ext
  exact h

theorem char_eq_of_diff_zero (c d : Char) (h : (c.toNat : Int) - (d.toNat : Int) = 0) :
    c = d := by
  apply char_eq_of_toNat_eq
  omega

theorem strcmp_self (a : List Char) : strcmp a a = 0 := by
  induction a with
  | nil => simp [strcmp, current]
  | cons c p ih =>
    by_cases h : c = NUL <;> simp [strcmp, h, ih]

theorem strcmp_eq_zero (a b : List Char) (ha : nul_free a) (hb : nul_free b)
    (h : strcmp a b = 0) : a = b := by
  induction a generalizing b with
  | nil =>
    cases b with
    | nil => rfl
    | cons d q =>
      exfalso
      have hd : d ≠ NUL := hb d (List.mem_cons_self _ _)
      simp only [strcmp, current, List.headD_cons] at h
      exact hd (char_eq_of_diff_zero NUL d h).symm
  | cons c p ih =>
    have hc : c ≠ NUL := ha c (List.mem_cons_self _ _)
    cases b with
    | nil =>
      exfalso
      simp only [strcmp] at h
      exact hc (char_eq_of_diff_zero c NUL h)
    | cons d q =>
      by_cases hcd : c = d
      · subst hcd
        simp only [strcmp, ne_eq, not_true_eq_false, if_false, hc] at h
        have hp : nul_free p := fun x hx => ha x (List.mem_cons_of_mem _ hx)
        have hq : nul_free q := fun x hx => hb x (List.mem_cons_of_mem _ hx)
        rw [ih q hp hq h]
      · exfalso
        simp only [strcmp, ne_eq, hcd, not_false_eq_true, if_true] at h
        exact hcd (char_eq_of_diff_zero c d h)

theorem compare_self (a : List Char) : basic_string.compare a a = 0 := by
  induction a with
  | nil => simp [basic_string.compare]
  | cons c p ih => simp [basic_string.compare, ih]

theorem compare_eq_zero (a b : List Char) (h : basic_string.compare a b = 0) : a = b := by
  induction a generalizing b with
  | nil =>
    cases b with
    | nil => rfl
    | cons d q => simp [basic_string.compare] at h
  | cons c p ih =>
    cases b with
    | nil => simp [basic_string.compare] at h
    | cons d q =>
      simp only [basic_string.compare] at h
      by_cases h1 : c.toNat < d.toNat
      · rw [if_pos h1] at h
        omega
      · rw [if_neg h1] at h
        by_cases h2 : d.toNat < c.toNat
        · rw [if_pos h2] at h
          omega
        · rw [if_neg h2] at h
          have hcd : c = d := char_eq_of_toNat_eq c d (by omega)
          rw [hcd, ih q h]

theorem c_str_of_nul_free (a : List Char) (ha : nul_free a) : c_str a = a := by
  induction a with
  | nil => rfl
  | cons c p ih =>
    have hc : c ≠ NUL := ha c (List.mem_cons_self _ _)
    have hp : nul_free p := fun x hx => ha x (List.mem_cons_of_mem _ hx)
    have ih2 := ih hp
    have hb : (c != NUL) = true := by simpa using hc
    unfold c_str at ih2 ⊢
    rw [List.takeWhile_cons, hb, if_pos rfl, ih2]

theorem c_str_nul_free (a : List Char) : nul_free (c_str a) := by
  intro c hc
  have h := List.mem_takeWhile_imp hc
  simpa using h

theorem g_strdup_printf_Linux (arg : List Char) :
    g_strdup_printf "Linux %s".data arg = "Linux ".data ++ c_str arg := by
  simp [g_strdup_printf]

theorem get_platform_version_eq (kernel : Option utsname) :
    get_platform_version kernel =
      .success (.string ("Linux " ++ String.mk (c_str (uname kernel utsname.zero).2.version))) := by
  have hlit : nul_free "Linux ".data := by decide
  have hfree : nul_free ("Linux ".data ++ c_str (uname kernel utsname.zero).2.version) := by
    intro c hc
    rcases List.mem_append.mp hc with h | h
    · exact hlit c h
    · exact c_str_nul_free _ c h
  show FlMethodResponse.success (FlValue.string (String.mk (c_str
    (g_strdup_printf "Linux %s".data (uname kernel utsname.zero).2.version)))) = _
  rw [g_strdup_printf_Linux, c_str_of_nul_free _ hfree]
  rfl

theorem linux_handle_known (kernel : Option utsname) (self : PoseDetectionTflitePlugin)
    (args : FlValue) (log : List FlMethodResponse) :
    pose_detection_tflite_plugin_handle_method_call kernel self
        { name := "getPlatformVersion".data, args := args, responses := log } =
      { name := "getPlatformVersion".data, args := args,
        responses := log ++ [get_platform_version kernel] } := by
  unfold pose_detection_tflite_plugin_handle_method_call fl_method_call_get_name
    fl_method_call_respond
  simp only [strcmp_self, if_true]

theorem linux_handle_unknown (kernel : Option utsname) (self : PoseDetectionTflitePlugin)
    (name : List Char) (args : FlValue) (log : List FlMethodResponse)
    (hfree : nul_free name) (hne : name ≠ "getPlatformVersion".data) :
    pose_detection_tflite_plugin_handle_method_call kernel self
        { name := name, args := args, responses := log } =
      { name := name, args := args,
        responses := log ++ [FlMethodResponse.not_implemented] } := by
  have hlit : nul_free "getPlatformVersion".data := by decide
  have hcmp : ¬ strcmp name "getPlatformVersion".data = 0 :=
    fun h => hne (strcmp_eq_zero _ _ hfree hlit h)
  unfold pose_detection_tflite_plugin_handle_method_call fl_method_call_get_name
    fl_method_call_respond fl_method_not_implemented_response_new
  simp only [hcmp, if_false]

theorem windows_pose_known (os : VersionHelpers) (arguments : EncodableValue)
    (result : MethodResult) :
    pose_detection_tflite.PoseDetectionTflitePlugin.HandleMethodCall os
        { method_name := "getPlatformVersion", arguments := arguments } result =
      { replies := result.replies ++ [Reply.Success (EncodableValue.string ("Windows " ++
          (if os.IsWindows10OrGreater then "10+"
           else if os.IsWindows8OrGreater then "8"
           else if os.IsWindows7OrGreater then "7"
           else "")))] } := by
  rcases os with ⟨a, b, c⟩
  cases a <;> cases b <;> cases c <;> rfl

theorem windows_face_known (os : VersionHelpers) (arguments : EncodableValue)
    (result : MethodResult) :
    face_detection_tflite.PoseDetectionTflitePlugin.HandleMethodCall os
        { method_name := "getPlatformVersion", arguments := arguments } result =
      { replies := result.replies ++ [Reply.Success (EncodableValue.string ("Windows " ++
          (if os.IsWindows10OrGreater then "10+"
           else if os.IsWindows8OrGreater then "8"
           else if os.IsWindows7OrGreater then "7"
           else "")))] } := by
  rcases os with ⟨a, b, c⟩
  cases a <;> cases b <;> cases c <;> rfl

theorem windows_pose_unknown (os : VersionHelpers) (name : String)
    (arguments : EncodableValue) (result : MethodResult) (hne : name ≠ "getPlatformVersion") :
    pose_detection_tflite.PoseDetectionTflitePlugin.HandleMethodCall os
        { method_name := name, arguments := arguments } result =
      { replies := result.replies ++ [Reply.NotImplemented] } := by
  have hcmp : ¬ basic_string.compare name.data "getPlatformVersion".data = 0 :=
    fun h => hne (String.ext (compare_eq_zero _ _ h))
  unfold pose_detection_tflite.PoseDetectionTflitePlugin.HandleMethodCall
    MethodResult.NotImplemented
  simp only [hcmp, if_false]

theorem windows_face_unknown (os : VersionHelpers) (name : String)
    (arguments : EncodableValue) (result : MethodResult) (hne : name ≠ "getPlatformVersion") :
    face_detection_tflite.PoseDetectionTflitePlugin.HandleMethodCall os
        { method_name := name, arguments := arguments } result =
      { replies := result.replies ++ [Reply.NotImplemented] } := by
  have hcmp : ¬ basic_string.compare name.data "getPlatformVersion".data = 0 :=
    fun h => hne (String.ext (compare_eq_zero _ _ h))
  unfold face_detection_tflite.PoseDetectionTflitePlugin.HandleMethodCall
    MethodResult.NotImplemented
  simp only [hcmp, if_false]

/-! ## Dispatch -/

/-- C1. On Windows, for every outcome of the three version predicates, a call
named `getPlatformVersion` is answered with exactly one `Success` whose value is
the string `"Windows "` followed by the bucket of the first predicate that
holds in the order 10, 8, 7 (`"10+"`, `"8"`, `"7"`), or by nothing when none
holds.  This holds for the handler of either Windows source file. -/
theorem windows_get_platform_version_reply (os : VersionHelpers)
    (arguments : EncodableValue) (result : MethodResult) :
    pose_detection_tflite.PoseDetectionTflitePlugin.HandleMethodCall os
        { method_name := "getPlatformVersion", arguments := arguments } result =
      { replies := result.replies ++ [Reply.Success (EncodableValue.string ("Windows " ++
          (if os.IsWindows10OrGreater then "10+"
           else if os.IsWindows8OrGreater then "8"
           else if os.IsWindows7OrGreater then "7"
           else "")))] } ∧
    face_detection_tflite.PoseDetectionTflitePlugin.HandleMethodCall os
        { method_name := "getPlatformVersion", arguments := arguments } result =
      { replies := result.replies ++ [Reply.Success (EncodableValue.string ("Windows " ++
          (if os.IsWindows10OrGreater then "10+"
           else if os.IsWindows8OrGreater then "8"
           else if os.IsWindows7OrGreater then "7"
           else "")))] } :=
  ⟨windows_pose_known os arguments result, windows_face_known os arguments result⟩

/-- C2. The match on the method name is exact on both backends.  On Linux (for
a method name that is a C string, that is, without an embedded terminator) the
handler answers not-implemented exactly when the name differs from
`getPlatformVersion`, and answers with a success exactly when the name equals
it.  On Windows the same holds for every name.  In particular a name that is
not the literal never gets a success or an error reply. -/
theorem method_name_match_is_exact (name : String) (kernel : Option utsname)
    (self : PoseDetectionTflitePlugin) (args : FlValue) (log : List FlMethodResponse)
    (os : VersionHelpers) (arguments : EncodableValue) (result : MethodResult) :
    (nul_free name.data →
      (((pose_detection_tflite_plugin_handle_method_call kernel self
            { name := name.data, args := args, responses := log }).responses =
          log ++ [FlMethodResponse.not_implemented] ↔ name ≠ "getPlatformVersion") ∧
       ((∃ value, (pose_detection_tflite_plugin_handle_method_call kernel self
            { name := name.data, args := args, responses := log }).responses =
          log ++ [FlMethodResponse.success value]) ↔ name = "getPlatformVersion"))) ∧
    ((pose_detection_tflite.PoseDetectionTflitePlugin.HandleMethodCall os
          { method_name := name, arguments := arguments } result =
        { replies := result.replies ++ [Reply.NotImplemented] } ↔
        name ≠ "getPlatformVersion") ∧
     ((∃ value, pose_detection_tflite.PoseDetectionTflitePlugin.HandleMethodCall os
          { method_name := name, arguments := arguments } result =
        { replies := result.replies ++ [Reply.Success value] }) ↔
        name = "getPlatformVersion")) := by
  by_cases h : name = "getPlatformVersion"
  · subst h
    refine ⟨fun _ => ⟨?_, ?_⟩, ?_, ?_⟩
    · rw [linux_handle_known, get_platform_version_eq]
      simp
    · rw [linux_handle_known, get_platform_version_eq]
      simp
    · rw [windows_pose_known]
      simp
    · rw [windows_pose_known]
      simp
  · refine ⟨fun hfree => ⟨?_, ?_⟩, ?_, ?_⟩
    · rw [linux_handle_unknown kernel self name.data args log hfree
        (fun hd => h (String.ext hd))]
      simp [h]
    · rw [linux_handle_unknown kernel self name.data args log hfree
        (fun hd => h (String.ext hd))]
      simp [h]
    · rw [windows_pose_unknown os name arguments result h]
      simp [h]
    · rw [windows_pose_unknown os name arguments result h]
      simp [h]

/-- Witness for C2 at the name `getplatformversion`, which differs from the
literal in case only: both backends answer not-implemented. -/
theorem method_name_match_is_exact_witness :
    (pose_detection_tflite_plugin_handle_method_call none {}
        { name := "getplatformversion".data, args := FlValue.null, responses := [] }).responses =
      [FlMethodResponse.not_implemented] ∧
    pose_detection_tflite.PoseDetectionTflitePlugin.HandleMethodCall
        { IsWindows10OrGreater := true, IsWindows8OrGreater := true,
          IsWindows7OrGreater := true }
        { method_name := "getplatformversion", arguments := EncodableValue.null }
        { replies := [] } =
      { replies := [Reply.NotImplemented] } :=
  ⟨((method_name_match_is_exact "getplatformversion" none {} FlValue.null []
      { IsWindows10OrGreater := true, IsWindows8OrGreater := true,
        IsWindows7OrGreater := true } EncodableValue.null { replies := [] }).1
      (by decide)).1.2 (by decide),
   (method_name_match_is_exact "getplatformversion" none {} FlValue.null []
      { IsWindows10OrGreater := true, IsWindows8OrGreater := true,
        IsWindows7OrGreater := true } EncodableValue.null { replies := [] }).2.1.2
      (by decide)⟩

/-! ## The Linux probe -/

/-- C3. When `uname` reports a kernel whose version field holds the C string
`v`, `get_platform_version` returns a success response whose value is of
string type and equals `"Linux "` followed by `v` and nothing else, so it
starts with `"Linux "`; and the Linux handler answers a call named
`getPlatformVersion` with exactly that response. -/
theorem get_platform_version_reports_version_field (reported : utsname) (v : String)
    (hv : c_str reported.version = v.data) (self : PoseDetectionTflitePlugin)
    (args : FlValue) (log : List FlMethodResponse) :
    get_platform_version (some reported) =
      FlMethodResponse.success (FlValue.string ("Linux " ++ v)) ∧
    fl_value_get_type (FlValue.string ("Linux " ++ v)) = FlValueType.FL_VALUE_TYPE_STRING ∧
    "Linux ".data <+: ("Linux " ++ v).data ∧
    (pose_detection_tflite_plugin_handle_method_call (some reported) self
        { name := "getPlatformVersion".data, args := args, responses := log }).responses =
      log ++ [FlMethodResponse.success (FlValue.string ("Linux " ++ v))] := by
  have hres : get_platform_version (some reported) =
      FlMethodResponse.success (FlValue.string ("Linux " ++ v)) := by
    rw [get_platform_version_eq]
    show FlMethodResponse.success (FlValue.string
      ("Linux " ++ String.mk (c_str reported.version))) = _
    rw [hv]
  refine ⟨hres, rfl, ?_, ?_⟩
  · rw [String.data_append]
    exact List.prefix_append _ _
  · rw [linux_handle_known, hres]

/-- Witness for C3: a kernel that reports the version field `#1 SMP`. -/
theorem get_platform_version_reports_version_field_witness :
    get_platform_version (some
        { sysname := "Linux".data ++ [NUL], nodename := "host".data ++ [NUL],
          release := "6.1.0".data ++ [NUL],
          version := "#1 SMP".data ++ List.replicate 59 NUL,
          machine := "x86_64".data ++ [NUL], domainname := [NUL] }) =
      FlMethodResponse.success (FlValue.string ("Linux " ++ "#1 SMP")) :=
  (get_platform_version_reports_version_field
    { sysname := "Linux".data ++ [NUL], nodename := "host".data ++ [NUL],
      release := "6.1.0".data ++ [NUL],
      version := "#1 SMP".data ++ List.replicate 59 NUL,
      machine := "x86_64".data ++ [NUL], domainname := [NUL] }
    "#1 SMP" (by decide) {} FlValue.null []).1

/-- C4. The Linux probe never fails.  When `uname` fails and leaves the
zero-initialised structure as it was, `get_platform_version` returns the
success response with the value `"Linux "` (an empty version part); and for
every outcome of `uname` the result is a success response carrying a string
that starts with `"Linux "`, never an error or a not-implemented response. -/
theorem get_platform_version_never_fails :
    uname none utsname.zero = (-1, utsname.zero) ∧
    get_platform_version none = FlMethodResponse.success (FlValue.string "Linux ") ∧
    (∀ kernel : Option utsname, ∃ s : String,
      get_platform_version kernel = FlMethodResponse.success (FlValue.string s) ∧
      "Linux ".data <+: s.data) ∧
    (∀ kernel : Option utsname,
      get_platform_version kernel ≠ FlMethodResponse.not_implemented ∧
      ∀ code message details,
        get_platform_version kernel ≠ FlMethodResponse.error code message details) := by
  refine ⟨rfl, by decide, ?_, ?_⟩
  · intro kernel
    refine ⟨_, get_platform_version_eq kernel, ?_⟩
    rw [String.data_append]
    exact List.prefix_append _ _
  · intro kernel
    rw [get_platform_version_eq]
    exact ⟨by simp, by simp⟩

/-! ## One reply per call -/

/-- C5. Every run of a handler emits exactly one reply.  On Linux the response
log of the call grows by exactly one entry (one `fl_method_call_respond`), for
every method name and every outcome of `uname`.  On Windows the reply log of
the result object grows by exactly one entry, which is either a `Success` or
the `NotImplemented` reply, for every method name and every outcome of the
version predicates. -/
theorem exactly_one_reply_per_call (kernel : Option utsname)
    (self : PoseDetectionTflitePlugin) (method_call : FlMethodCall)
    (os : VersionHelpers) (call : MethodCall) (result : MethodResult) :
    (∃ response,
      (pose_detection_tflite_plugin_handle_method_call kernel self method_call).responses =
        method_call.responses ++ [response]) ∧
    (pose_detection_tflite_plugin_handle_method_call kernel self method_call).responses.length =
      method_call.responses.length + 1 ∧
    (∃ reply,
      (pose_detection_tflite.PoseDetectionTflitePlugin.HandleMethodCall os call result).replies =
        result.replies ++ [reply] ∧
      ((∃ value, reply = Reply.Success value) ∨ reply = Reply.NotImplemented)) ∧
    (pose_detection_tflite.PoseDetectionTflitePlugin.HandleMethodCall os call
        result).replies.length = result.replies.length + 1 := by
  have hl : ∃ response,
      (pose_detection_tflite_plugin_handle_method_call kernel self method_call).responses =
        method_call.responses ++ [response] := ⟨_, rfl⟩
  have hw : ∃ reply,
      (pose_detection_tflite.PoseDetectionTflitePlugin.HandleMethodCall os call result).replies =
        result.replies ++ [reply] ∧
      ((∃ value, reply = Reply.Success value) ∨ reply = Reply.NotImplemented) := by
    unfold pose_detection_tflite.PoseDetectionTflitePlugin.HandleMethodCall
    by_cases h : basic_string.compare call.method_name.data "getPlatformVersion".data = 0
    · rw [if_pos h]
      exact ⟨_, rfl, Or.inl ⟨_, rfl⟩⟩
    · rw [if_neg h]
      exact ⟨_, rfl, Or.inr rfl⟩
  refine ⟨hl, ?_, hw, ?_⟩
  · obtain ⟨r, hr⟩ := hl
    rw [hr]
    simp
  · obtain ⟨r, hr, _⟩ := hw
    rw [hr]
    simp

/-! ## The Windows boundary -/

/-- C6. On a Windows host for which none of the three version predicates holds,
a call named `getPlatformVersion` is answered with a `Success` whose value is
the string `"Windows "`: eight characters, the last one a space; it is not the
string `"Windows"`, and the reply is neither an error nor not-implemented. -/
theorem windows_older_than_7_reply (arguments : EncodableValue) (result : MethodResult) :
    pose_detection_tflite.PoseDetectionTflitePlugin.HandleMethodCall
        { IsWindows10OrGreater := false, IsWindows8OrGreater := false,
          IsWindows7OrGreater := false }
        { method_name := "getPlatformVersion", arguments := arguments } result =
      { replies := result.replies ++ [Reply.Success (EncodableValue.string "Windows ")] } ∧
    "Windows ".length = 8 ∧
    "Windows ".data.getLast? = some (Char.ofNat 32) ∧
    "Windows " ≠ "Windows" ∧
    Reply.Success (EncodableValue.string "Windows ") ≠ Reply.NotImplemented := by
  refine ⟨rfl, by decide, by decide, by decide, by decide⟩

/-! ## Registration -/

theorem modify_last (l : List Nat) (x : Nat) (f : Nat → Nat) :
    (l ++ [x]).modify f l.length = l ++ [f x] := by
  induction l with
  | nil => rfl
  | cons a l ih =>
    simp only [List.cons_append, List.length_cons, List.modify_succ_cons, ih]

theorem linux_register_eq (registrar : FlPluginRegistrar) :
    pose_detection_tflite_plugin_register_with_registrar registrar =
      { objects := registrar.objects ++ [1]
        channels := registrar.channels ++
          [{ name := "pose_detection_tflite", codec := FlMethodCodec.standard }]
        handlers := registrar.handlers ++
          [{ channel := { name := "pose_detection_tflite", codec := FlMethodCodec.standard }
             handler := FlMethodChannelMethodCallHandler.method_call_cb
             user_data := registrar.objects.length
             destroy_notify := GDestroyNotify.g_object_unref }] } := by
  simp only [pose_detection_tflite_plugin_register_with_registrar, g_object_new,
    fl_standard_method_codec_new, fl_method_channel_new, fl_plugin_registrar_get_messenger,
    g_object_ref,
    fl_method_channel_set_method_call_handler, g_object_unref, modify_last]

theorem windows_run_eq (entry : WindowsEntryPoint) (registrar : PluginRegistrarWindows) :
    entry.run registrar =
      { allocated := registrar.allocated + 1
        channels := registrar.channels ++
          [{ name := entry.channel_name, codec := MethodCodec.StandardMethodCodec }]
        handlers := registrar.handlers ++
          [{ channel := { name := entry.channel_name, codec := MethodCodec.StandardMethodCodec }
             handler := { plugin_pointer :=
               { address := registrar.allocated, cls := entry.cls } } }]
        plugins := registrar.plugins ++
          [{ address := registrar.allocated, cls := entry.cls }] } := by
  cases entry <;> rfl

theorem windows_fresh_empty : PluginRegistrarWindows.empty.fresh := by
  constructor <;> intro x hx <;> cases hx

theorem windows_fresh_run (entry : WindowsEntryPoint) (registrar : PluginRegistrarWindows)
    (h : registrar.fresh) : (entry.run registrar).fresh := by
  rw [windows_run_eq]
  constructor
  · intro plugin hp
    rcases List.mem_append.mp hp with hp | hp
    · exact Nat.lt_succ_of_lt (h.1 plugin hp)
    · rw [List.mem_singleton] at hp
      subst hp
      exact Nat.lt_succ_self _
  · intro binding hb
    rcases List.mem_append.mp hb with hb | hb
    · exact Nat.lt_succ_of_lt (h.2 binding hb)
    · rw [List.mem_singleton] at hb
      subst hb
      exact Nat.lt_succ_self _

theorem windows_plugins_for_run (entry : WindowsEntryPoint)
    (registrar : PluginRegistrarWindows) (name : String) (h : registrar.fresh) :
    (entry.run registrar).plugins_for name =
      registrar.plugins_for name ++
        (if entry.channel_name = name
         then [{ address := registrar.allocated, cls := entry.cls }] else []) := by
  rw [windows_run_eq]
  unfold PluginRegistrarWindows.plugins_for
  simp only [List.filter_append, List.any_append]
  congr 1
  · apply List.filter_congr
    intro plugin hp
    have hlt := h.1 plugin hp
    have hne : ¬ ({ address := registrar.allocated, cls := entry.cls } : Plugin) = plugin := by
      intro he
      rw [← he] at hlt
      exact Nat.lt_irrefl _ hlt
    simp [hne]
  · have hold : registrar.handlers.any (fun binding =>
        decide (binding.handler.plugin_pointer =
          ({ address := registrar.allocated, cls := entry.cls } : Plugin)) &&
        decide (binding.channel.name = name)) = false := by
      rw [List.any_eq_false]
      intro binding hb
      have hlt := h.2 binding hb
      have hne : ¬ binding.handler.plugin_pointer =
          ({ address := registrar.allocated, cls := entry.cls } : Plugin) := by
        intro he
        rw [he] at hlt
        exact Nat.lt_irrefl _ hlt
      simp [hne]
    by_cases hn : entry.channel_name = name
    · simp [hold, hn]
    · simp [hold, hn]

theorem windows_plugins_for_all (calls : List WindowsEntryPoint)
    (registrar : PluginRegistrarWindows) (name : String) (h : registrar.fresh) :
    ((windows_register_all registrar calls).plugins_for name).length =
      (registrar.plugins_for name).length +
        (calls.filter (fun entry => decide (entry.channel_name = name))).length := by
  induction calls generalizing registrar with
  | nil => simp [windows_register_all]
  | cons entry rest ih =>
    rw [windows_register_all, ih _ (windows_fresh_run entry registrar h),
      windows_plugins_for_run entry registrar name h]
    by_cases hn : entry.channel_name = name
    · simp [hn, List.filter_cons]
      omega
    · simp [hn, List.filter_cons]

theorem linux_fresh_register (registrar : FlPluginRegistrar) (h : registrar.fresh) :
    (pose_detection_tflite_plugin_register_with_registrar registrar).fresh := by
  rw [linux_register_eq]
  intro binding hb
  simp only [List.length_append, List.length_singleton]
  rcases List.mem_append.mp hb with hb | hb
  · exact Nat.lt_succ_of_lt (h binding hb)
  · rw [List.mem_singleton] at hb
    subst hb
    exact Nat.lt_succ_self _

theorem linux_plugins_for_register (registrar : FlPluginRegistrar) (name : String)
    (h : registrar.fresh) :
    (pose_detection_tflite_plugin_register_with_registrar registrar).plugins_for name =
      registrar.plugins_for name ++
        (if "pose_detection_tflite" = name then [registrar.objects.length] else []) := by
  rw [linux_register_eq]
  unfold FlPluginRegistrar.plugins_for
  simp only [List.filter_append, List.map_append]
  congr 1
  · congr 1
    apply List.filter_congr
    intro binding hb
    rw [List.getD_append _ _ _ _ (h binding hb)]
  · by_cases hn : "pose_detection_tflite" = name
    · simp [hn, List.filter_cons, List.getD_append_right]
    · simp [hn, List.filter_cons]

theorem linux_plugins_for_times (n : Nat) (registrar : FlPluginRegistrar) (name : String)
    (h : registrar.fresh) :
    ((linux_register_times registrar n).plugins_for name).length =
      (registrar.plugins_for name).length +
        (if "pose_detection_tflite" = name then n else 0) := by
  induction n generalizing registrar with
  | zero => simp [linux_register_times]
  | succ n ih =>
    rw [linux_register_times, ih _ (linux_fresh_register registrar h),
      linux_plugins_for_register registrar name h]
    by_cases hn : "pose_detection_tflite" = name
    · simp [hn]
      omega
    · simp [hn]

theorem linux_serve_at (self : PoseDetectionTflitePlugin)
    (pre post : List (Option utsname × FlMethodCall)) (kernel : Option utsname)
    (method_call : FlMethodCall) :
    (linux_serve self (pre ++ (kernel, method_call) :: post))[pre.length]? =
      some (pose_detection_tflite_plugin_handle_method_call kernel self method_call) := by
  induction pre with
  | nil => simp [linux_serve]
  | cons x pre ih =>
    obtain ⟨k, c⟩ := x
    simpa [linux_serve] using ih

theorem windows_serve_at (handler : MethodCallHandler)
    (pre post : List (VersionHelpers × MethodCall × MethodResult)) (os : VersionHelpers)
    (call : MethodCall) (result : MethodResult) :
    (windows_serve handler (pre ++ (os, call, result) :: post))[pre.length]? =
      some (handler.invoke os call result) := by
  induction pre with
  | nil => simp [windows_serve]
  | cons x pre ih =>
    obtain ⟨o, c, r⟩ := x
    simpa [windows_serve] using ih

theorem windows_invoke_eq (os : VersionHelpers) (handler : MethodCallHandler)
    (call : MethodCall) (result : MethodResult) :
    handler.invoke os call result =
      pose_detection_tflite.PoseDetectionTflitePlugin.HandleMethodCall os call result := by
  unfold MethodCallHandler.invoke
  cases handler.plugin_pointer.cls <;> rfl

theorem windows_reply_of_name (os : VersionHelpers) (name : String) :
    ∃ reply, ∀ (arguments : EncodableValue) (result : MethodResult),
      pose_detection_tflite.PoseDetectionTflitePlugin.HandleMethodCall os
          { method_name := name, arguments := arguments } result =
        { replies := result.replies ++ [reply] } := by
  by_cases h : name = "getPlatformVersion"
  · subst h
    exact ⟨_, fun arguments result => windows_pose_known os arguments result⟩
  · exact ⟨_, fun arguments result => windows_pose_unknown os name arguments result h⟩

theorem linux_reply_of_name (kernel : Option utsname) (name : List Char) :
    ∃ response, ∀ (self : PoseDetectionTflitePlugin) (args : FlValue)
        (log : List FlMethodResponse),
      pose_detection_tflite_plugin_handle_method_call kernel self
          { name := name, args := args, responses := log } =
        { name := name, args := args, responses := log ++ [response] } :=
  ⟨if strcmp name "getPlatformVersion".data = 0 then get_platform_version kernel
    else fl_method_not_implemented_response_new, fun _ _ _ => rfl⟩

/-- C7 (amended). One invocation of a registration entry point, on any
registrar, creates exactly one method channel with the standard method codec,
installs exactly one method-call handler on that channel, and hands exactly one
new plugin instance to the host: on Linux a new object whose single remaining
reference is the one owned by the handler, on Windows a new object passed to
`AddPlugin`.  The channel is named `pose_detection_tflite` for the Linux entry
point and for the entry point of `windows/pose_detection_tflite_plugin.cpp`;
it is named `face_detection_tflite` for the entry points of
`windows/face_detection_tflite_plugin.cpp` and `windows/registration.cpp`. -/
theorem registration_effects (registrar : FlPluginRegistrar)
    (windows : PluginRegistrarWindows) :
    pose_detection_tflite_plugin_register_with_registrar registrar =
      { objects := registrar.objects ++ [1]
        channels := registrar.channels ++
          [{ name := "pose_detection_tflite", codec := FlMethodCodec.standard }]
        handlers := registrar.handlers ++
          [{ channel := { name := "pose_detection_tflite", codec := FlMethodCodec.standard }
             handler := FlMethodChannelMethodCallHandler.method_call_cb
             user_data := registrar.objects.length
             destroy_notify := GDestroyNotify.g_object_unref }] } ∧
    pose_detection_tflite_plugin_cpp.PoseDetectionTflitePluginRegisterWithRegistrar windows =
      { allocated := windows.allocated + 1
        channels := windows.channels ++
          [{ name := "pose_detection_tflite", codec := MethodCodec.StandardMethodCodec }]
        handlers := windows.handlers ++
          [{ channel :=
               { name := "pose_detection_tflite", codec := MethodCodec.StandardMethodCodec }
             handler := { plugin_pointer :=
               { address := windows.allocated, cls := PluginClass.pose_detection_tflite } } }]
        plugins := windows.plugins ++
          [{ address := windows.allocated, cls := PluginClass.pose_detection_tflite }] } ∧
    face_detection_tflite_plugin_cpp.PoseDetectionTflitePluginRegisterWithRegistrar windows =
      { allocated := windows.allocated + 1
        channels := windows.channels ++
          [{ name := "face_detection_tflite", codec := MethodCodec.StandardMethodCodec }]
        handlers := windows.handlers ++
          [{ channel :=
               { name := "face_detection_tflite", codec := MethodCodec.StandardMethodCodec }
             handler := { plugin_pointer :=
               { address := windows.allocated, cls := PluginClass.face_detection_tflite } } }]
        plugins := windows.plugins ++
          [{ address := windows.allocated, cls := PluginClass.face_detection_tflite }] } ∧
    registration_cpp.PoseDetectionTflitePluginRegisterWithRegistrar windows =
      { allocated := windows.allocated + 1
        channels := windows.channels ++
          [{ name := "face_detection_tflite", codec := MethodCodec.StandardMethodCodec }]
        handlers := windows.handlers ++
          [{ channel :=
               { name := "face_detection_tflite", codec := MethodCodec.StandardMethodCodec }
             handler := { plugin_pointer :=
               { address := windows.allocated, cls := PluginClass.face_detection_tflite } } }]
        plugins := windows.plugins ++
          [{ address := windows.allocated, cls := PluginClass.face_detection_tflite }] } :=
  ⟨linux_register_eq registrar, rfl, rfl, rfl⟩

/-- C7, as stated, fails: the entry point of `windows/registration.cpp`, run on
the empty registrar, creates one channel, and its name is
`face_detection_tflite`, not `pose_detection_tflite`. -/
theorem registration_cpp_channel_name :
    (registration_cpp.PoseDetectionTflitePluginRegisterWithRegistrar
        PluginRegistrarWindows.empty).channels =
      [{ name := "face_detection_tflite", codec := MethodCodec.StandardMethodCodec }] ∧
    ¬ ∃ channel ∈ (registration_cpp.PoseDetectionTflitePluginRegisterWithRegistrar
        PluginRegistrarWindows.empty).channels, channel.name = "pose_detection_tflite" := by
  decide

/-- C8 (amended). Every registration call hands one more plugin instance to
the host; no call looks for an earlier registration.  On Windows, in every
state reached from the empty registrar by a sequence of registration calls,
the number of plugin instances the registrar holds for a channel name equals
the number of calls in the sequence that bind this name; on Linux, after `n`
calls of the entry point the stub holds `n` handler-owned plugin references
for `pose_detection_tflite` and none for any other name.  So there is exactly
one plugin instance for a channel name after exactly one registration call
for it. -/
theorem plugin_instances_count_registrations (calls : List WindowsEntryPoint)
    (n : Nat) (name : String) :
    ((windows_register_all PluginRegistrarWindows.empty calls).plugins_for name).length =
      (calls.filter (fun entry => decide (entry.channel_name = name))).length ∧
    ((linux_register_times FlPluginRegistrar.empty n).plugins_for name).length =
      (if "pose_detection_tflite" = name then n else 0) ∧
    (∀ entry : WindowsEntryPoint,
      ((windows_register_all PluginRegistrarWindows.empty [entry]).plugins_for
        entry.channel_name).length = 1) ∧
    ((linux_register_times FlPluginRegistrar.empty 1).plugins_for
      "pose_detection_tflite").length = 1 := by
  have hw := windows_plugins_for_all calls PluginRegistrarWindows.empty name
    windows_fresh_empty
  have hl := linux_plugins_for_times n FlPluginRegistrar.empty name
    (fun binding hb => by cases hb)
  refine ⟨?_, ?_, ?_, by decide⟩
  · rw [hw]
    simp [PluginRegistrarWindows.plugins_for, PluginRegistrarWindows.empty]
  · rw [hl]
    simp [FlPluginRegistrar.plugins_for, FlPluginRegistrar.empty]
  · intro entry
    cases entry <;> decide

/-- C8, as stated, fails: two invocations of the entry point of
`windows/pose_detection_tflite_plugin.cpp` on the empty registrar leave two
plugin instances for the channel `pose_detection_tflite`. -/
theorem double_registration_two_plugins :
    (windows_register_all PluginRegistrarWindows.empty
        [WindowsEntryPoint.pose_detection_tflite_plugin_cpp,
         WindowsEntryPoint.pose_detection_tflite_plugin_cpp]).plugins_for
        "pose_detection_tflite" =
      [{ address := 0, cls := PluginClass.pose_detection_tflite },
       { address := 1, cls := PluginClass.pose_detection_tflite }] ∧
    ((windows_register_all PluginRegistrarWindows.empty
        [WindowsEntryPoint.pose_detection_tflite_plugin_cpp,
         WindowsEntryPoint.pose_detection_tflite_plugin_cpp]).plugins_for
        "pose_detection_tflite").length ≠ 1 := by
  decide

/-! ## Arguments and earlier calls do not matter -/

/-- C9. The reply depends on the method name and on the outcome of the OS
probe only.  For two calls with the same method name and arbitrary argument
payloads, served under the same probe outcome, the handler appends the same
reply to the log of each call, whatever that log already holds; and when the
two calls are served at any position of two arbitrary call sequences, the
result for the one equals the result for the other.  This holds for the Linux
handler and for a handler installed by either Windows class. -/
theorem reply_independent_of_arguments_and_history (name : String)
    (kernel : Option utsname) (self1 self2 : PoseDetectionTflitePlugin)
    (args1 args2 : FlValue) (log1 log2 : List FlMethodResponse)
    (pre1 post1 pre2 post2 : List (Option utsname × FlMethodCall))
    (os : VersionHelpers) (handler1 handler2 : MethodCallHandler)
    (arguments1 arguments2 : EncodableValue) (result1 result2 : MethodResult)
    (wpre1 wpost1 wpre2 wpost2 : List (VersionHelpers × MethodCall × MethodResult)) :
    (∃ response,
      (pose_detection_tflite_plugin_handle_method_call kernel self1
          { name := name.data, args := args1, responses := log1 }).responses =
        log1 ++ [response] ∧
      (pose_detection_tflite_plugin_handle_method_call kernel self2
          { name := name.data, args := args2, responses := log2 }).responses =
        log2 ++ [response]) ∧
    ((linux_serve self1 (pre1 ++ (kernel,
          { name := name.data, args := args1, responses := [] }) :: post1))[pre1.length]?).map
        FlMethodCall.responses =
      ((linux_serve self2 (pre2 ++ (kernel,
          { name := name.data, args := args2, responses := [] }) :: post2))[pre2.length]?).map
        FlMethodCall.responses ∧
    (∃ reply,
      (handler1.invoke os { method_name := name, arguments := arguments1 } result1).replies =
        result1.replies ++ [reply] ∧
      (handler2.invoke os { method_name := name, arguments := arguments2 } result2).replies =
        result2.replies ++ [reply]) ∧
    (windows_serve handler1 (wpre1 ++ (os,
          { method_name := name, arguments := arguments1 },
          { replies := [] }) :: wpost1))[wpre1.length]? =
      (windows_serve handler2 (wpre2 ++ (os,
          { method_name := name, arguments := arguments2 },
          { replies := [] }) :: wpost2))[wpre2.length]? := by
  obtain ⟨response, hl⟩ := linux_reply_of_name kernel name.data
  obtain ⟨reply, hw⟩ := windows_reply_of_name os name
  refine ⟨⟨response, ?_, ?_⟩, ?_, ⟨reply, ?_, ?_⟩, ?_⟩
  · rw [hl]
  · rw [hl]
  · rw [linux_serve_at, linux_serve_at, hl, hl]
    rfl
  · rw [windows_invoke_eq, hw]
  · rw [windows_invoke_eq, hw]
  · rw [windows_serve_at, windows_serve_at, windows_invoke_eq, windows_invoke_eq, hw, hw]

/-! ## The two Windows surfaces -/

/-- C10. The two Windows plugin surfaces agree up to names.  For every method
call, every outcome of the three version predicates and every result object,
the `HandleMethodCall` of `face_detection_tflite` and the one of
`pose_detection_tflite` produce the same result.  Their `RegisterWithRegistrar`
operations have the same effect on every registrar (one channel with the
standard codec, one handler on it, one new plugin passed to `AddPlugin`),
except that the one binds the channel name `face_detection_tflite` and the
other `pose_detection_tflite`, each with a plugin of its own class; handlers
that capture plugins of the two classes answer alike. -/
theorem windows_surfaces_agree (os : VersionHelpers) (call : MethodCall)
    (result : MethodResult) (registrar : PluginRegistrarWindows) (address : Nat) :
    face_detection_tflite.PoseDetectionTflitePlugin.HandleMethodCall os call result =
      pose_detection_tflite.PoseDetectionTflitePlugin.HandleMethodCall os call result ∧
    face_detection_tflite.PoseDetectionTflitePlugin.RegisterWithRegistrar registrar =
      { allocated := registrar.allocated + 1
        channels := registrar.channels ++
          [{ name := "face_detection_tflite", codec := MethodCodec.StandardMethodCodec }]
        handlers := registrar.handlers ++
          [{ channel :=
               { name := "face_detection_tflite", codec := MethodCodec.StandardMethodCodec }
             handler := { plugin_pointer :=
               { address := registrar.allocated,
                 cls := PluginClass.face_detection_tflite } } }]
        plugins := registrar.plugins ++
          [{ address := registrar.allocated, cls := PluginClass.face_detection_tflite }] } ∧
    pose_detection_tflite.PoseDetectionTflitePlugin.RegisterWithRegistrar registrar =
      { allocated := registrar.allocated + 1
        channels := registrar.channels ++
          [{ name := "pose_detection_tflite", codec := MethodCodec.StandardMethodCodec }]
        handlers := registrar.handlers ++
          [{ channel :=
               { name := "pose_detection_tflite", codec := MethodCodec.StandardMethodCodec }
             handler := { plugin_pointer :=
               { address := registrar.allocated,
                 cls := PluginClass.pose_detection_tflite } } }]
        plugins := registrar.plugins ++
          [{ address := registrar.allocated, cls := PluginClass.pose_detection_tflite }] } ∧
    MethodCallHandler.invoke os
        { plugin_pointer := { address := address, cls := PluginClass.face_detection_tflite } }
        call result =
      MethodCallHandler.invoke os
        { plugin_pointer := { address := address, cls := PluginClass.pose_detection_tflite } }
        call result :=
  ⟨rfl, rfl, rfl, rfl⟩
